import Mathlib

/-!
Verification development for the Cyrus response-caching layer.

Shallow embedding of the repository's Python sources:
  * `src/Cyrus/util.py`    — serialization envelope (CustomJsonEncoder / object_hook)
  * `src/Cyrus/cache.py`   — the `cache` decorator (`inner_wrapper`), `calculate_ttl`
  * `src/Cyrus/client.py`  — the `Cyrus` store client (cacheability, lookup, store,
                             response headers, conditional requests, singleton)
  * `src/Cyrus/redis.py`   — connection establishment (`_connect_generic`)
  * `src/Perseus/key_gen.py` — cache-key derivation

Python values are embedded as the inductive `PyVal`; machine-level detail that the
program never observes (the exact byte stream between `json.dumps` and `json.loads`)
is modelled structurally: the store holds the parsed JSON structure, which is sound
because `json.loads (json.dumps x) = x` for the JSON-native values this program writes.
The textual payloads that ARE observed (the strings produced by `serialize_json` and
returned as response bodies) are modelled as real strings via the printer `dumps`.
-/

namespace Cyrus

/-- Python exception classes that the embedded code can raise. -/
inductive PyErr where
  | typeError
  | attributeError
  | keyError
  | valueError
deriving DecidableEq, Repr

/-- A `datetime.datetime` value: calendar fields plus an optional UTC offset in
minutes (`none` models a naive datetime).  Sub-second precision is not carried,
mirroring the repository's timestamp format `"%m/%d/%Y %I:%M:%S %p %z"`
(`DATETIME_AWARE` in `util.py`), which is second-granular. -/
structure PyDatetime where
  year : Nat
  month : Nat
  day : Nat
  hour : Nat
  minute : Nat
  second : Nat
  tz : Option Int
deriving DecidableEq, Repr

/-- Embedded Python values, covering the types `util.py` serializes plus the
objects the cache handles: `vobj attrs` is an instance object whose `__dict__`
is `attrs`; `vinstanceState` marks a `sqlalchemy.orm.InstanceState` bookkeeping
value; `vopaque` is any other object with no JSON encoding. -/
inductive PyVal where
  | vnone
  | vbool (b : Bool)
  | vint (n : Int)
  | vstr (s : String)
  | vlist (xs : List PyVal)
  | vdict (kvs : List (String × PyVal))
  | vdatetime (dt : PyDatetime)
  | vdate (y m d : Nat)
  | vdecimal (s : String)
  | venum (u : PyVal)
  | vuuid (s : String)
  | vinstanceState
  | vobj (attrs : List (String × PyVal))
  | vopaque (tag : String)
deriving Repr

namespace PyVal

mutual

/-- Python `repr`, modelled for the value shapes this program renders
(strings without quote characters, integers, booleans, `None`, and lists and
dicts of those).  Matches CPython's output on that fragment. -/
def pyRepr : PyVal → String
  | vnone => "None"
  | vbool b => if b then "True" else "False"
  | vint n => toString n
  | vstr s => "\x27" ++ s ++ "\x27"
  | vlist xs => "[" ++ String.intercalate ", " (pyReprList xs) ++ "]"
  | vdict kvs => "\x7b" ++ String.intercalate ", " (pyReprKVs kvs) ++ "\x7d"
  | vdatetime _ => "<datetime>"
  | vdate _ _ _ => "<date>"
  | vdecimal s => "Decimal(\x27" ++ s ++ "\x27)"
  | venum _ => "<enum>"
  | vuuid s => s
  | vinstanceState => "<InstanceState>"
  | vobj _ => "<object>"
  | vopaque t => "<" ++ t ++ ">"

/-- `repr` of each element of a list. -/
def pyReprList : List PyVal → List String
  | [] => []
  | x :: xs => pyRepr x :: pyReprList xs

/-- `repr` of each entry of a dict. -/
def pyReprKVs : List (String × PyVal) → List String
  | [] => []
  | (k, v) :: kvs => ("\x27" ++ k ++ "\x27: " ++ pyRepr v) :: pyReprKVs kvs

end

/-- Python `str`: identity on strings, `repr`-like otherwise. -/
def pyStr : PyVal → String
  | vstr s => s
  | v => pyRepr v

end PyVal

open PyVal

/-- JSON string literal printer used by `json.dumps`. -/
def dumpsStr (s : String) : String :=
  "\"" ++ String.join (s.data.map fun c =>
    if c = '"' then "\\\"" else if c = '\\' then "\\\\" else String.singleton c) ++ "\""

mutual

/-- `json.dumps` with default options: succeeds exactly on JSON-native values
(`None`, bool, int, str, and lists/dicts thereof) and raises `TypeError`
(modelled as `none`) otherwise. -/
def dumps : PyVal → Option String
  | vnone => some "null"
  | vbool b => some (if b then "true" else "false")
  | vint n => some (toString n)
  | vstr s => some (dumpsStr s)
  | vlist xs =>
      match dumpsList xs with
      | some ys => some ("[" ++ String.intercalate ", " ys ++ "]")
      | none => none
  | vdict kvs =>
      match dumpsKVs kvs with
      | some ys => some ("\x7b" ++ String.intercalate ", " ys ++ "\x7d")
      | none => none
  | _ => none

/-- `json.dumps` over the elements of a JSON array. -/
def dumpsList : List PyVal → Option (List String)
  | [] => some []
  | x :: xs =>
      match dumps x, dumpsList xs with
      | some y, some ys => some (y :: ys)
      | _, _ => none

/-- `json.dumps` over the entries of a JSON object. -/
def dumpsKVs : List (String × PyVal) → Option (List String)
  | [] => some []
  | kv :: kvs =>
      match dumps kv.2, dumpsKVs kvs with
      | some y, some ys => some ((dumpsStr kv.1 ++ ": " ++ y) :: ys)
      | _, _ => none

end

/-! ### The timestamp formats of `util.py`

`DATETIME_AWARE = "%m/%d/%Y %I:%M:%S %p %z"` and `DATE_ONLY = "%m/%d/%Y"`,
rendered by `strftime` and read back by `dateutil.parser.parse`. -/

/-- The character of a decimal digit. -/
def digitChar (d : Nat) : Char := Char.ofNat (48 + d)

/-- Two-digit zero-padded field (`%m`, `%d`, `%I`, `%M`, `%S`). -/
def pad2 (n : Nat) : List Char := [digitChar (n / 10 % 10), digitChar (n % 10)]

/-- Four-digit year (`%Y`; Python's `datetime` holds `1 ≤ year ≤ 9999`, and for
years ≥ 1000 glibc renders exactly four digits). -/
def pad4 (n : Nat) : List Char :=
  [digitChar (n / 1000 % 10), digitChar (n / 100 % 10), digitChar (n / 10 % 10),
   digitChar (n % 10)]

/-- `%I`: hour on the 12-hour clock. -/
def hour12 (h : Nat) : Nat := if h % 12 = 0 then 12 else h % 12

/-- `%p` in the C locale. -/
def ampmChars (h : Nat) : List Char := if h < 12 then ['A', 'M'] else ['P', 'M']

/-- `%z`: `±HHMM` for an aware datetime, empty for a naive one. -/
def tzChars : Option Int → List Char
  | none => []
  | some off =>
      (if 0 ≤ off then ['+'] else ['-']) ++ pad2 (off.natAbs / 60) ++ pad2 (off.natAbs % 60)

/-- `value.strftime(DATETIME_AWARE)` from `util.py` (`CustomJsonEncoder`). -/
def strftime_aware (dt : PyDatetime) : String :=
  ⟨pad2 dt.month ++ '/' :: pad2 dt.day ++ '/' :: pad4 dt.year ++
   ' ' :: pad2 (hour12 dt.hour) ++ ':' :: pad2 dt.minute ++ ':' :: pad2 dt.second ++
   ' ' :: ampmChars dt.hour ++ ' ' :: tzChars dt.tz⟩

/-- `obj.strftime(DATE_ONLY)` from `util.py`. -/
def strftime_dateonly (y m d : Nat) : String :=
  ⟨pad2 m ++ '/' :: pad2 d ++ '/' :: pad4 y⟩

/-- Decimal digit value of a character, if any. -/
def charDigit (c : Char) : Option Nat :=
  if 48 ≤ c.toNat ∧ c.toNat ≤ 57 then some (c.toNat - 48) else none

/-- Parse a two-digit decimal field. -/
def parse2 (c1 c0 : Char) : Option Nat :=
  match charDigit c1, charDigit c0 with
  | some a, some b => some (a * 10 + b)
  | _, _ => none

/-- Parse a four-digit decimal field. -/
def parse4 (c3 c2 c1 c0 : Char) : Option Nat :=
  match charDigit c3, charDigit c2, charDigit c1, charDigit c0 with
  | some a, some b, some c, some d => some (a * 1000 + b * 100 + c * 10 + d)
  | _, _, _, _ => none

/-- Parse a UTC-offset sign. -/
def parseSign (c : Char) : Option Bool :=
  if c = '+' then some true else if c = '-' then some false else none

/-- Month/day/year component of the parser: field ranges as `dateutil` accepts
them for this format family. -/
def mkParsedDate (m1 m0 d1 d0 y3 y2 y1 y0 : Char) : Except PyErr (Nat × Nat × Nat) :=
  match parse2 m1 m0, parse2 d1 d0, parse4 y3 y2 y1 y0 with
  | some m, some d, some y =>
      if 1 ≤ m ∧ m ≤ 12 ∧ 1 ≤ d ∧ d ≤ 31 then .ok (y, m, d) else .error .valueError
  | _, _, _ => .error .valueError

/-- 12-hour time component of the parser, converted to the 24-hour clock using
the AM/PM marker. -/
def mkParsedTime (h1 h0 n1 n0 s1 s0 ap : Char) : Except PyErr (Nat × Nat × Nat) :=
  match parse2 h1 h0, parse2 n1 n0, parse2 s1 s0 with
  | some h, some mi, some se =>
      if 1 ≤ h ∧ h ≤ 12 ∧ mi ≤ 59 ∧ se ≤ 59 then
        if ap = 'A' then .ok (h % 12, mi, se)
        else if ap = 'P' then .ok (h % 12 + 12, mi, se)
        else .error .valueError
      else .error .valueError
  | _, _, _ => .error .valueError

/-- `±HHMM` offset component of the parser, in minutes. -/
def mkParsedTZ (sg z3 z2 z1 z0 : Char) : Except PyErr Int :=
  match parseSign sg, parse2 z3 z2, parse2 z1 z0 with
  | some pos, some hh, some mm =>
      .ok (if pos then ((hh * 60 + mm : Nat) : Int) else -((hh * 60 + mm : Nat) : Int))
  | _, _, _ => .error .valueError

/-- Modelled from the spec: `dateutil.parser.parse` is a third-party collaborator
(not under `src/`); the spec fixes the two formats the envelope emits —
`"MM/DD/YYYY hh:mm:ss AM/PM ±zone"` and `"MM/DD/YYYY"` — and `dateutil` on those
strings returns the denoted instant as a `datetime` (a date-only string yields
midnight of that day, naive).  This function is that behaviour on exactly those
shapes; anything else is a parse failure. -/
def parse_datetime_str (s : String) : Except PyErr PyDatetime :=
  match s.data with
  | [m1, m0, '/', d1, d0, '/', y3, y2, y1, y0] =>
      match mkParsedDate m1 m0 d1 d0 y3 y2 y1 y0 with
      | .ok (y, m, d) => .ok ⟨y, m, d, 0, 0, 0, none⟩
      | .error e => .error e
  | [m1, m0, '/', d1, d0, '/', y3, y2, y1, y0, ' ',
     h1, h0, ':', n1, n0, ':', s1, s0, ' ', ap, 'M', ' '] =>
      match mkParsedDate m1 m0 d1 d0 y3 y2 y1 y0, mkParsedTime h1 h0 n1 n0 s1 s0 ap with
      | .ok (y, m, d), .ok (h, mi, se) => .ok ⟨y, m, d, h, mi, se, none⟩
      | .error e, _ => .error e
      | _, .error e => .error e
  | [m1, m0, '/', d1, d0, '/', y3, y2, y1, y0, ' ',
     h1, h0, ':', n1, n0, ':', s1, s0, ' ', ap, 'M', ' ', sg, z3, z2, z1, z0] =>
      match mkParsedDate m1 m0 d1 d0 y3 y2 y1 y0, mkParsedTime h1 h0 n1 n0 s1 s0 ap,
            mkParsedTZ sg z3 z2 z1 z0 with
      | .ok (y, m, d), .ok (h, mi, se), .ok off => .ok ⟨y, m, d, h, mi, se, some off⟩
      | .error e, _, _ => .error e
      | _, .error e, _ => .error e
      | _, _, .error e => .error e
  | _ => .error .valueError

/-! ### `util.py`: CustomJsonEncoder / object_hook / serialize_json / deserialize_json -/

/-- `str(datetime)` — the `_spec_type` tag for timestamps.  (The Python value is
the text `<class ` + apostrophe + `datetime.datetime` + apostrophe + `>`.) -/
def str_datetime_class : String := "<class \x27datetime.datetime\x27>"

/-- `str(date)`. -/
def str_date_class : String := "<class \x27datetime.date\x27>"

/-- `str(Decimal)`. -/
def str_decimal_class : String := "<class \x27decimal.Decimal\x27>"

mutual

/-- `CustomJsonEncoder` from `util.py`.  Note the source's asymmetry, kept here:
inside a dict only `InstanceState` (dropped), `datetime` (formatted, untagged)
and `Enum` (unwrapped) receive treatment — all other values are stored as-is —
while at top level timestamps, dates and decimals get tagged envelopes and list
elements are encoded recursively. -/
def CustomJsonEncoder : PyVal → PyVal
  | vdict kvs => vdict (encodeDictEntries kvs)
  | vlist xs => vlist (encodeListElems xs)
  | vdatetime dt =>
      vdict [("val", vstr (strftime_aware dt)), ("_spec_type", vstr str_datetime_class)]
  | vdate y m d =>
      vdict [("val", vstr (strftime_dateonly y m d)), ("_spec_type", vstr str_date_class)]
  | vdecimal s => vdict [("val", vstr s), ("_spec_type", vstr str_decimal_class)]
  | vobj attrs => vdict attrs
  | vuuid s => vstr s
  | venum u => vstr (pyStr u)
  | v => v

/-- The dict branch of `CustomJsonEncoder` (one pass over `obj.items()`). -/
def encodeDictEntries : List (String × PyVal) → List (String × PyVal)
  | [] => []
  | (k, v) :: rest =>
      match v with
      | vinstanceState => encodeDictEntries rest
      | vdatetime dt => (k, vstr (strftime_aware dt)) :: encodeDictEntries rest
      | venum u => (k, u) :: encodeDictEntries rest
      | _ => (k, v) :: encodeDictEntries rest

/-- The list branch of `CustomJsonEncoder`. -/
def encodeListElems : List PyVal → List PyVal
  | [] => []
  | x :: xs => CustomJsonEncoder x :: encodeListElems xs

end

/-- `SERIALIZE_OBJ_MAP` from `util.py`: tag → decoding function.  Both the
timestamp tag and the date tag map to `parser.parse` (which always builds a
`datetime`); the decimal tag maps to the `Decimal` constructor. -/
def SERIALIZE_OBJ_MAP_lookup (t : String) : Option (String → Except PyErr PyVal) :=
  if t = str_datetime_class then
    some fun s => (parse_datetime_str s).map PyVal.vdatetime
  else if t = str_date_class then
    some fun s => (parse_datetime_str s).map PyVal.vdatetime
  else if t = str_decimal_class then
    some fun s => .ok (PyVal.vdecimal s)
  else none

/-- `object_hook` from `util.py`, applied by `json.loads` to each decoded JSON
object: absence of a `_spec_type` key passes the object through; a recognized
tag invokes the mapped constructor on `obj["val"]`; an unrecognized tag raises
`TypeError`. -/
def object_hook (kvs : List (String × PyVal)) : Except PyErr PyVal :=
  match kvs.lookup "_spec_type" with
  | none => .ok (vdict kvs)
  | some t =>
      match t with
      | vstr ts =>
          match SERIALIZE_OBJ_MAP_lookup ts with
          | some f =>
              match kvs.lookup "val" with
              | some (vstr s) => f s
              | some _ => .error .typeError
              | none => .error .keyError
          | none => .error .typeError
      | _ => .error .typeError

mutual

/-- `deserialize_json` from `util.py`: `json.loads(text, object_hook=object_hook)`,
modelled on the parsed structure (the hook runs bottom-up on every object). -/
def deserialize_json : PyVal → Except PyErr PyVal
  | vdict kvs =>
      match deserializeKVs kvs with
      | .ok kvs2 => object_hook kvs2
      | .error e => .error e
  | vlist xs =>
      match deserializeList xs with
      | .ok ys => .ok (vlist ys)
      | .error e => .error e
  | v => .ok v

/-- `deserialize_json` over array elements. -/
def deserializeList : List PyVal → Except PyErr (List PyVal)
  | [] => .ok []
  | x :: xs =>
      match deserialize_json x with
      | .ok y =>
          match deserializeList xs with
          | .ok ys => .ok (y :: ys)
          | .error e => .error e
      | .error e => .error e

/-- `deserialize_json` over object entries. -/
def deserializeKVs : List (String × PyVal) → Except PyErr (List (String × PyVal))
  | [] => .ok []
  | (k, v) :: kvs =>
      match deserialize_json v with
      | .ok w =>
          match deserializeKVs kvs with
          | .ok ws => .ok ((k, w) :: ws)
          | .error e => .error e
      | .error e => .error e

end

/-- Python iteration (`for obj in value`) for the values the cache handles:
lists yield elements, strings yield their characters, dicts yield their keys;
other values raise `TypeError`. -/
def pyIter : PyVal → Except PyErr (List PyVal)
  | vlist xs => .ok xs
  | vstr s => .ok (s.data.map fun c => vstr (String.singleton c))
  | vdict kvs => .ok (kvs.map fun kv => vstr kv.1)
  | _ => .error .typeError

/-- `obj.__dict__`: defined for instance objects, `AttributeError` otherwise. -/
def pyDict : PyVal → Except PyErr PyVal
  | vobj attrs => .ok (vdict attrs)
  | _ => .error .attributeError

/-- The comprehension `[CustomJsonEncoder(obj.__dict__) for obj in json_dict]`. -/
def serializeObjs : List PyVal → Except PyErr (List PyVal)
  | [] => .ok []
  | o :: os =>
      match pyDict o with
      | .error e => .error e
      | .ok d =>
          match serializeObjs os with
          | .ok ds => .ok (CustomJsonEncoder d :: ds)
          | .error e => .error e

/-- `serialize_json` from `util.py`: a dict is encoded and dumped; any other
value is iterated, each element's `__dict__` is encoded, and the list is
dumped.  `json.dumps` failure is `TypeError`. -/
def serialize_json : PyVal → Except PyErr String
  | vdict kvs =>
      match dumps (CustomJsonEncoder (vdict kvs)) with
      | some s => .ok s
      | none => .error .typeError
  | v =>
      match pyIter v with
      | .error e => .error e
      | .ok objs =>
          match serializeObjs objs with
          | .error e => .error e
          | .ok datas =>
              match dumps (vlist datas) with
              | some s => .ok s
              | none => .error .typeError

/-- `ONE_HOUR_IN_SECONDS` from `util.py`. -/
def ONE_HOUR_IN_SECONDS : Int := 3600

/-- `ONE_DAY_IN_SECONDS` from `util.py`. -/
def ONE_DAY_IN_SECONDS : Int := ONE_HOUR_IN_SECONDS * 24

/-- `ONE_WEEK_IN_SECONDS` from `util.py`. -/
def ONE_WEEK_IN_SECONDS : Int := ONE_DAY_IN_SECONDS * 7

/-- `ONE_MONTH_IN_SECONDS` from `util.py`. -/
def ONE_MONTH_IN_SECONDS : Int := ONE_DAY_IN_SECONDS * 30

/-- `ONE_YEAR_IN_SECONDS` from `util.py`. -/
def ONE_YEAR_IN_SECONDS : Int := ONE_DAY_IN_SECONDS * 365

/-! ### `cache.py`: TTL computation -/

/-- The `expire` argument of the `cache` decorator: `Union[int, timedelta]`.
A `timedelta` carries microsecond resolution; we represent it by its total
microseconds. -/
inductive ExpireArg where
  | secInt (n : Int)
  | delta (totalMicroseconds : Int)
deriving DecidableEq, Repr

/-- `calculate_ttl` from `cache.py`: `int(expire.total_seconds())` for a
`timedelta` (`int()` truncates toward zero, `Int.div`), then
`min(expire, ONE_YEAR_IN_SECONDS)`. -/
def calculate_ttl : ExpireArg → Int
  | .secInt n => min n ONE_YEAR_IN_SECONDS
  | .delta us => min (Int.tdiv us 1000000) ONE_YEAR_IN_SECONDS

/-! ### `src/Perseus/key_gen.py`: cache-key derivation -/

/-- One declared parameter of a target function: its name, its type
annotation (represented by the type's name, e.g. `"int"`, `"Request"`), and
its default value if any. -/
structure Param where
  name : String
  anno : String
  dflt : Option PyVal

/-- A target function: defining module, function name, declared signature. -/
structure PyFunc where
  module : String
  fname : String
  sig : List Param

/-- `ALWAYS_IGNORE_ARG_TYPES = [Response, Request]` from `key_gen.py`. -/
def ALWAYS_IGNORE_ARG_TYPES : List String := ["Response", "Request"]

/-- `sig.bind(*args, **kwargs)` followed by `apply_defaults()`
(`get_func_args` in `key_gen.py`): positional arguments are matched against
the declared parameters in order, remaining parameters are filled from the
keyword arguments (a keyword for a positionally-filled parameter is a
`TypeError`, as is a missing required parameter), defaults fill the rest, and
leftover keywords are unexpected.  The result lists every parameter in
declared order — `apply_defaults` rebuilds the mapping in signature order.
Keyword arguments form a Python dict, so their names are unique; lookup and
removal are by name. -/
def bindArgs : List Param → List PyVal → List (String × PyVal) →
    Except PyErr (List (String × PyVal))
  | [], [], kwargs => if kwargs.isEmpty then .ok [] else .error .typeError
  | [], _ :: _, _ => .error .typeError
  | p :: ps, a :: as, kwargs =>
      if (kwargs.lookup p.name).isSome then .error .typeError
      else
        match bindArgs ps as kwargs with
        | .ok rest => .ok ((p.name, a) :: rest)
        | .error e => .error e
  | p :: ps, [], kwargs =>
      match kwargs.lookup p.name with
      | some v =>
          match bindArgs ps [] (kwargs.filter fun kv => ¬(kv.1 = p.name)) with
          | .ok rest => .ok ((p.name, v) :: rest)
          | .error e => .error e
      | none =>
          match p.dflt with
          | some d =>
              match bindArgs ps [] kwargs with
              | .ok rest => .ok ((p.name, d) :: rest)
              | .error e => .error e
          | none => .error .typeError

/-- `sig_params[arg].annotation` for a bound argument name. -/
def annoOf (sig : List Param) (nm : String) : String :=
  match sig.find? fun p => p.name = nm with
  | some p => p.anno
  | none => ""

/-- `get_args_str` from `key_gen.py`: comma-joined `name=value` over the bound
arguments whose declared parameter type is not ignored, in bound (that is,
declared) order; values are rendered with `str`. -/
def get_args_str (sig : List Param) (funcArgs : List (String × PyVal))
    (ignoreTypes : List String) : String :=
  String.intercalate ","
    ((funcArgs.filter fun kv => ¬(ignoreTypes.contains (annoOf sig kv.1))).map
      fun kv => kv.1 ++ "=" ++ pyStr kv.2)

/-- `get_cache_key` from `key_gen.py`: merge the caller-supplied ignored types
with the always-ignored carrier types (the source builds
`list(set(ignore) | set(ALWAYS))`, which the key uses only through membership),
prepend `"{p}:"` for a non-empty (truthy) configured key namespace, bind the
arguments, and assemble `prefix + module.name(args)`. -/
def get_cache_key (keyPre : String) (ignoreTypes : List String) (func : PyFunc)
    (args : List PyVal) (kwargs : List (String × PyVal)) : Except PyErr String :=
  let ignore := ignoreTypes ++ ALWAYS_IGNORE_ARG_TYPES
  let pre := if keyPre = "" then "" else keyPre ++ ":"
  match bindArgs func.sig args kwargs with
  | .error e => .error e
  | .ok funcArgs =>
      .ok (pre ++ func.module ++ "." ++ func.fname ++ "(" ++
           get_args_str func.sig funcArgs ignore ++ ")")

/-! ### `src/Cyrus/redis.py` and the connection-status machine -/

/-- Modelled from the spec: `RedisStatus` is declared in `Cyrus/enums.py`,
which is not under `src/`; §3 of the spec fixes the enumeration
{NONE, CONNECTED, AUTH_ERROR, CONN_ERROR}. -/
inductive RedisStatus where
  | NONE
  | CONNECTED
  | AUTH_ERROR
  | CONN_ERROR
deriving DecidableEq, Repr

/-- Behaviour of one attempt to build a redis client and ping it: the
constructor call can raise `redis.AuthenticationError` or
`redis.ConnectionError`, or succeed and then answer (or fail) the PING. -/
inductive ConnAttempt where
  | raisesAuthError
  | raisesConnError
  | succeeds (pingOk : Bool)
deriving DecidableEq, Repr

/-- `_connect_generic` from `redis.py`: the `except (redis.AuthenticationError,
redis.ConnectionError)` clause returns `CONN_ERROR` for both exception classes;
a client that answers PING is `CONNECTED`, one that does not is `CONN_ERROR`.
The second component models whether a live client object was returned. -/
def _connect_generic : ConnAttempt → RedisStatus × Bool
  | .raisesAuthError => (.CONN_ERROR, false)
  | .raisesConnError => (.CONN_ERROR, false)
  | .succeeds pingOk => if pingOk then (.CONNECTED, true) else (.CONN_ERROR, false)

/-- `redis_connect` from `redis.py`: chooses `redis.from_url` or `redis.Redis`
by the `local` flag and delegates to `_connect_generic`; the chosen path does
not change the status computation. -/
def redis_connect (_host_url : String) (_lcl : Bool) (_password : Option String)
    (_port : Int) (attempt : ConnAttempt) : RedisStatus × Bool :=
  _connect_generic attempt

/-! ### `src/Cyrus/client.py`: the `Cyrus` store client -/

/-- The request-carrier contract the engine consumes: an HTTP method and a
header mapping. -/
structure Request where
  method : String
  headers : List (String × String)

/-- Header lookup (`headers.get`/`in`): the first entry with the given name. -/
def getHeader : List (String × String) → String → Option String
  | [], _ => none
  | (k1, v) :: tl, k => if k = k1 then some v else getHeader tl k

/-- Header update (`response.headers[k] = v`). -/
def setHeader (hs : List (String × String)) (k : String) (v : String) :
    List (String × String) :=
  (k, v) :: hs.filter fun kv => ¬(kv.1 = k)

/-- Python's `in` on strings: substring containment. -/
def strContains (hay needle : String) : Bool :=
  decide (List.IsInfix needle.data hay.data)

/-- `ALLOWED_HTTP_TYPES = ["GET"]` from `client.py`. -/
def ALLOWED_HTTP_TYPES : List String := ["GET"]

/-- `DEFAULT_RESPONSE_HEADER` from `client.py`. -/
def DEFAULT_RESPONSE_HEADER : String := "X-FastAPI-Cache"

/-- `Cyrus.request_is_not_cacheable`: `request and (method not allowed or a
no-store/no-cache directive occurs in Cache-Control)`.  With no request object
the conjunction is falsy — the call is treated as cacheable. -/
def request_is_not_cacheable : Option Request → Bool
  | none => false
  | some req =>
      decide (¬ ALLOWED_HTTP_TYPES.contains req.method) ||
      (["no-store", "no-cache"].any fun d =>
        strContains ((getHeader req.headers "Cache-Control").getD "") d)

/-- Python `str.split(",")`: split at every comma, keeping empty pieces.
(`String.splitOn` from the library is avoided only because its well-founded
recursion does not reduce inside the kernel; this is the same function.) -/
def splitCommaAux : List Char → List Char → List String
  | [], acc => [⟨acc.reverse⟩]
  | c :: cs, acc =>
      if c = ',' then ⟨acc.reverse⟩ :: splitCommaAux cs [] else splitCommaAux cs (c :: acc)

/-- `h.split(",")`. -/
def splitComma (s : String) : List String := splitCommaAux s.data []

/-- ASCII whitespace, as `str.strip()` removes it. -/
def isSpaceChar (c : Char) : Bool := c = ' ' || c = '\t' || c = '\n' || c = '\r'

/-- Python `str.strip()`. -/
def pyTrim (s : String) : String :=
  ⟨((s.data.dropWhile isSpaceChar).reverse.dropWhile isSpaceChar).reverse⟩

/-- `Cyrus.requested_resource_not_modified`: no request or no `If-None-Match`
header is `False`; the header is split on commas, empty raw pieces dropped,
pieces trimmed; the lone token `*` is `True`; any other list reaches
`self.get_etag(cached_data)`, a method that exists only as commented-out
source — the attribute access raises `AttributeError`. -/
def requested_resource_not_modified (request : Option Request) (_cached : PyVal) :
    Except PyErr Bool :=
  match request with
  | none => .ok false
  | some req =>
      match getHeader req.headers "If-None-Match" with
      | none => .ok false
      | some h =>
          let check_etags := ((splitComma h).filter fun e => ¬(e = "")).map pyTrim
          match check_etags with
          | [e] => if e = "*" then .ok true else .error .attributeError
          | _ => .error .attributeError

/-- The backing store: each key holds the parsed form of the stored JSON text
together with the expiration that was set.  (`json.loads (json.dumps x) = x`
for the JSON-native structures `add_to_cache` writes, so holding the structure
is equivalent to holding the text.) -/
abbrev Store := List (String × PyVal × Int)

/-- `GET`+`TTL` of one key. -/
def storeLookup : Store → String → Option (PyVal × Int)
  | [], _ => none
  | (k1, v, t) :: tl, k => if k = k1 then some (v, t) else storeLookup tl k

/-- `SET key value EX ttl` (overwrite). -/
def storeSet (st : Store) (k : String) (v : PyVal) (ttl : Int) : Store :=
  (k, v, ttl) :: st.filter fun e => ¬(e.1 = k)

/-- `Cyrus.check_cache`: one pipelined round trip returning
`(ttl, value-or-None)`; redis reports TTL `-2` for a missing key. -/
def check_cache (st : Store) (k : String) : Int × Option PyVal :=
  match storeLookup st k with
  | none => (-2, none)
  | some (v, t) => (t, some v)

/-- `hasattr(value, "__len__")` for the embedded values: true for lists,
strings and dicts; instance objects and scalars have no `__len__`. -/
def hasLen : PyVal → Bool
  | vlist _ => true
  | vstr _ => true
  | vdict _ => true
  | _ => false

/-- Result of `Cyrus.add_to_cache` as the caller sees it: the `except
TypeError` branch returns the bare boolean `False`, every other path returns
the pair `(cached, serialized_dict)` where `serialized_dict` maps the cache
key to the list of serialized entry strings. -/
inductive AddRet where
  | boolFalse
  | pair (cached : Bool) (sd : List (String × List String))

/-- `[serialize_json(obj.__dict__) for obj in value]`. -/
def serializeEach : List PyVal → Except PyErr (List String)
  | [] => .ok []
  | o :: os =>
      match pyDict o with
      | .error e => .error e
      | .ok d =>
          match serialize_json d with
          | .error e => .error e
          | .ok s =>
              match serializeEach os with
              | .ok ss => .ok (s :: ss)
              | .error e => .error e

/-- The `try` body of `add_to_cache`: build the list of serialized messages
(`serialize_json(obj.__dict__)` per element for a sized value, a single
`serialize_json(value.__dict__)` otherwise). -/
def serializedMessages (value : PyVal) : Except PyErr (List String) :=
  if hasLen value then
    match pyIter value with
    | .error e => .error e
    | .ok objs => serializeEach objs
  else
    match pyDict value with
    | .error e => .error e
    | .ok d =>
        match serialize_json d with
        | .ok s => .ok [s]
        | .error e => .error e

/-- `Cyrus.add_to_cache`: on a `TypeError` inside the `try` block the failure
is logged and the bare `False` is returned — no store write happens; any other
exception (such as `AttributeError` from `obj.__dict__`) propagates; otherwise
`serialized_dict` is built (`{}` when no messages), dumped and written with the
given expiry, and `(cached, serialized_dict)` is returned (the modelled `SET`
always acknowledges, so `cached` is `true`). -/
def add_to_cache (key : String) (value : PyVal) (expire : Int) (st : Store) :
    Except PyErr (AddRet × Store) :=
  match serializedMessages value with
  | .error .typeError => .ok (.boolFalse, st)
  | .error e => .error e
  | .ok ms =>
      let sd : List (String × List String) := if ms.isEmpty then [] else [(key, ms)]
      let stored : PyVal := vdict (sd.map fun kv => (kv.1, vlist (kv.2.map PyVal.vstr)))
      .ok (.pair true sd, storeSet st key stored expire)

/-- `Cyrus.set_response_headers`: the configured hit/miss header, `Expires`
(UTC now plus the TTL, rendered as an HTTP-date — the rendering of the
collaborator `datetime` type is abstracted as `epoch:<seconds>`; no claim
observes its text), and `Cache-Control: max-age=<ttl>`. -/
def set_response_headers (resp : List (String × String)) (hdrName : String)
    (cache_hit : Bool) (ttl : Int) (now : Int) : List (String × String) :=
  setHeader
    (setHeader
      (setHeader resp hdrName (if cache_hit then "Hit" else "Miss"))
      "Expires" ("epoch:" ++ toString (now + ttl)))
    "Cache-Control" ("max-age=" ++ toString ttl)

/-! ### `cache.py`: the decorator body (`inner_wrapper`) -/

/-- What a decorated call hands back: the handler's raw Python value on the
passthrough paths, or response content (a string, or `None` for a 304) on the
cached paths.  We model the caller-supplied-`response` calling convention
(`create_response_directly = False`), under which `create_response` returns
the content unchanged. -/
inductive Ret where
  | raw (v : PyVal)
  | content (s : Option String)

/-- The observable outcome of one decorated call: whether the wrapped handler
ran, what was returned, the response headers, the response status code if one
was assigned, and the resulting store. -/
structure CallResult where
  invoked : Bool
  ret : Ret
  respHeaders : List (String × String)
  statusCode : Option Nat
  store : Store

/-- `json.loads(in_cache).get(key, json.loads(in_cache))` on the hit path. -/
def dictGetOrSelf (sv : PyVal) (key : String) : PyVal :=
  match sv with
  | vdict kvs =>
      match kvs.lookup key with
      | some v => v
      | none => sv
  | _ => sv

/-- `serialized_dict[key]` (a `KeyError` if absent). -/
def dictIndex (sd : List (String × List String)) (key : String) :
    Except PyErr (List String) :=
  match sd.lookup key with
  | some l => .ok l
  | none => .error .keyError

/-- `lst[0]` (an `IndexError`, folded into `keyError` here, if empty). -/
def listIndex0 (l : List String) : Except PyErr String :=
  match l with
  | [] => .error .keyError
  | s :: _ => .ok s

/-- `inner_wrapper` from `cache.py`, one decorated call.  Inputs: connection
state of the singleton, configured response-header name, the request carrier
popped from the kwargs (if any), the initial headers of the caller-supplied
response, the cache key computed for this call, the configured expiry, the
value the wrapped handler would produce, the store, and the current time.

Paths, as in the source: passthrough when the client is not connected or the
request is not cacheable; otherwise a lookup; on a hit, headers are annotated,
`deserialize_json` runs on the cached text, the conditional-request check may
set 304 with no body, else the body is `str` of the stored wrapper unwrapped
by key; on a miss, the handler runs, the result is serialized and stored, the
unpacking `cached, serialized_dict = ...` raises `TypeError` when
`add_to_cache` returned `False`, and the body is the fresh serialization (for
sized results) or `serialized_dict[key][0]`. -/
def inner_wrapper (connected : Bool) (hdrName : String) (request : Option Request)
    (resp0 : List (String × String)) (key : String) (expire : ExpireArg)
    (hv : PyVal) (st : Store) (now : Int) : Except PyErr CallResult :=
  if ¬(connected = true) ∨ request_is_not_cacheable request = true then
    .ok ⟨true, .raw hv, resp0, none, st⟩
  else
    match check_cache st key with
    | (ttl, some sv) =>
        match deserialize_json sv with
        | .error e => .error e
        | .ok _ =>
            let hdrs := set_response_headers resp0 hdrName true ttl now
            match requested_resource_not_modified request sv with
            | .error e => .error e
            | .ok true => .ok ⟨false, .content none, hdrs, some 304, st⟩
            | .ok false =>
                .ok ⟨false, .content (some (pyStr (dictGetOrSelf sv key))), hdrs, none, st⟩
    | (_, none) =>
        let ttl := calculate_ttl expire
        match add_to_cache key hv ttl st with
        | .error e => .error e
        | .ok (.boolFalse, _) => .error .typeError
        | .ok (.pair cached sd, st1) =>
            if cached then
              let hdrs := set_response_headers resp0 hdrName false ttl now
              if hasLen hv then
                match serialize_json hv with
                | .error e => .error e
                | .ok body => .ok ⟨true, .content (some body), hdrs, none, st1⟩
              else
                match dictIndex sd key with
                | .error e => .error e
                | .ok l =>
                    match listIndex0 l with
                    | .error e => .error e
                    | .ok body => .ok ⟨true, .content (some body), hdrs, none, st1⟩
            else .ok ⟨true, .raw hv, resp0, none, st1⟩

/-! ### `client.py`: the singleton metaclass and construction -/

/-- The constructor arguments of `Cyrus.__init__`. -/
structure CyrusConfig where
  keyPre : Option String
  response_header : Option String
  ignore_arg_types : List String
  lcl : Bool
  host_url : String
  password : Option String
  port : Int

/-- The state of a `Cyrus` instance after `__init__` ran. -/
structure CyrusInst where
  keyPre : Option String
  response_header : String
  ignore_arg_types : List String
  lcl : Bool
  host_url : String
  password : Option String
  port : Int
  status : RedisStatus
deriving DecidableEq, Repr

/-- `Cyrus.__init__`: store the configuration (`response_header or
DEFAULT_RESPONSE_HEADER`), then `_connect`, which sets `self.status` from
`redis_connect`. -/
def cyrus_init (cfg : CyrusConfig) (attempt : ConnAttempt) : CyrusInst :=
  { keyPre := cfg.keyPre
    response_header := cfg.response_header.getD DEFAULT_RESPONSE_HEADER
    ignore_arg_types := cfg.ignore_arg_types
    lcl := cfg.lcl
    host_url := cfg.host_url
    password := cfg.password
    port := cfg.port
    status := (redis_connect cfg.host_url cfg.lcl cfg.password cfg.port attempt).1 }

/-- `MetaSingleton.__call__` for the `Cyrus` class: the registry holds at most
the one `Cyrus` instance; a first call constructs (running `__init__`, hence
exactly one connection attempt), every later call returns the stored instance
and runs nothing.  The result is `(returned instance, registry after the call,
number of connection attempts performed by this call)`. -/
def metaSingleton_call (cfg : CyrusConfig) (attempt : ConnAttempt) :
    Option CyrusInst → CyrusInst × Option CyrusInst × Nat
  | some inst => (inst, some inst, 0)
  | none =>
      let inst := cyrus_init cfg attempt
      (inst, some inst, 1)

/-- A sequence of `Cyrus(...)` constructions: returns the list of instances
handed out, the final registry, and the total number of connection attempts. -/
def runConstructions : List (CyrusConfig × ConnAttempt) → Option CyrusInst →
    List CyrusInst × Option CyrusInst × Nat
  | [], reg => ([], reg, 0)
  | c :: cs, reg =>
      let (inst, reg1, n1) := metaSingleton_call c.1 c.2 reg
      let (insts, reg2, n2) := runConstructions cs reg1
      (inst :: insts, reg2, n1 + n2)

/-- `Cyrus.connected`: `status == RedisStatus.CONNECTED`. -/
def CyrusInst.connected (c : CyrusInst) : Bool := c.status = RedisStatus.CONNECTED

/-! ### Supported-value predicates for the round-trip property -/

mutual

/-- JSON-native values: `None`, booleans, integers, strings, and lists/dicts
of native values none of whose objects uses the reserved `_spec_type` key.
On these `json.dumps` succeeds, `CustomJsonEncoder` is the identity, and
`object_hook` passes every object through. -/
def nativeOK : PyVal → Bool
  | vnone => true
  | vbool _ => true
  | vint _ => true
  | vstr _ => true
  | vlist xs => nativeOKList xs
  | vdict kvs => nativeOKKVs kvs && (kvs.lookup "_spec_type").isNone
  | _ => false

/-- `nativeOK` over list elements. -/
def nativeOKList : List PyVal → Bool
  | [] => true
  | x :: xs => nativeOK x && nativeOKList xs

/-- `nativeOK` over dict values. -/
def nativeOKKVs : List (String × PyVal) → Bool
  | [] => true
  | (_, v) :: kvs => nativeOK v && nativeOKKVs kvs

end

/-- Field validity of a timezone-aware `datetime`, as Python's `datetime`
constructor enforces it (plus four-digit year and a sane offset, which the
`%Y`/`%z` renderings presuppose). -/
def PyDatetime.validAware (dt : PyDatetime) (off : Int) : Prop :=
  dt.tz = some off ∧ 1 ≤ dt.month ∧ dt.month ≤ 12 ∧ 1 ≤ dt.day ∧ dt.day ≤ 31 ∧
  dt.hour < 24 ∧ dt.minute < 60 ∧ dt.second < 60 ∧
  1000 ≤ dt.year ∧ dt.year < 10000 ∧ off.natAbs ≤ 5999

/-- The value set on which the envelope round-trips: JSON-native values,
fixed-point decimals, and valid timezone-aware timestamps. -/
def RTSupported (v : PyVal) : Prop :=
  nativeOK v = true ∨ (∃ s, v = vdecimal s) ∨
  (∃ dt off, v = vdatetime dt ∧ dt.validAware off)

/-! ## Theorems -/

/-- C5: the computed TTL is the expiration converted to whole seconds when it
is a duration, clamped to at most 31,536,000 seconds; `calculate_ttl` of 400
days in seconds is exactly 31536000 and `calculate_ttl 10 = 10`. -/
theorem calculate_ttl_spec :
    (∀ us : Int, calculate_ttl (.delta us) =
        min (Int.tdiv us 1000000) ONE_YEAR_IN_SECONDS) ∧
    (∀ e : ExpireArg, calculate_ttl e ≤ 31536000) ∧
    calculate_ttl (.secInt (400 * 86400)) = 31536000 ∧
    calculate_ttl (.secInt 10) = 10 := by
  have hy : ONE_YEAR_IN_SECONDS = 31536000 := by decide
  refine ⟨fun us => rfl, fun e => ?_, by decide, by decide⟩
  cases e with
  | secInt n => simp [calculate_ttl, hy]
  | delta us => simp [calculate_ttl, hy]

/-- C7 (divergence witnessed on the code): an `AuthenticationError` raised
while constructing the client yields status `CONN_ERROR`, not `AUTH_ERROR` —
`_connect_generic` catches both exception classes in a single clause and can
never produce `AUTH_ERROR`. -/
theorem auth_failure_yields_conn_error :
    _connect_generic .raisesAuthError = (RedisStatus.CONN_ERROR, false) ∧
    ∀ a : ConnAttempt, (_connect_generic a).1 ≠ RedisStatus.AUTH_ERROR := by
  refine ⟨rfl, fun a => ?_⟩
  cases a with
  | raisesAuthError => simp [_connect_generic]
  | raisesConnError => simp [_connect_generic]
  | succeeds p => cases p <;> simp [_connect_generic]

/-- Constructions after the first hand back the registered instance and
attempt no connection. -/
theorem runConstructions_reuse (cs : List (CyrusConfig × ConnAttempt)) (i : CyrusInst) :
    runConstructions cs (some i) = (List.replicate cs.length i, some i, 0) := by
  induction cs with
  | nil => rfl
  | cons c cs ih => simp [runConstructions, metaSingleton_call, ih, List.replicate]

/-- C10: every construction of the store client after the first returns the
first instance unchanged — later arguments are discarded — and across any
sequence of constructions the connection attempt happens exactly once, during
the first. -/
theorem singleton_first_instance_wins :
    (∀ (cfg : CyrusConfig) (attempt : ConnAttempt) (inst : CyrusInst),
      metaSingleton_call cfg attempt (some inst) = (inst, some inst, 0)) ∧
    (∀ (first : CyrusConfig × ConnAttempt) (rest : List (CyrusConfig × ConnAttempt)),
      runConstructions (first :: rest) none =
        (cyrus_init first.1 first.2 ::
           List.replicate rest.length (cyrus_init first.1 first.2),
         some (cyrus_init first.1 first.2), 1)) := by
  refine ⟨fun cfg attempt inst => rfl, fun first rest => ?_⟩
  simp [runConstructions, metaSingleton_call, runConstructions_reuse]

/-- C1 (divergence witnessed on the code): on a connected, cacheable, missed
call whose handler result has an unserializable attribute, the decorated call
raises `TypeError` — `add_to_cache` returns the bare `False`, which the
caller's tuple unpacking cannot destructure — instead of returning the raw
result; no store write is performed (`add_to_cache` leaves the store empty). -/
theorem serialization_failure_raises_and_skips_write :
    inner_wrapper true "X-FastAPI-Cache" (some ⟨"GET", []⟩) [] "k" (.secInt 100)
      (vobj [("x", vopaque "set")]) [] 0 = .error .typeError ∧
    add_to_cache "k" (vobj [("x", vopaque "set")]) 100 [] = .ok (.boolFalse, []) :=
  ⟨rfl, rfl⟩

/-- C6 (divergence witnessed on the code): on a cache hit, a lone `*` in
`If-None-Match` does produce a 304 with no body, but any entity-tag list (here
`"W/abc"`) raises `AttributeError`, because the tag-comparison branch calls
`self.get_etag`, a method that exists only as commented-out source. -/
theorem if_none_match_tag_comparison_raises :
    inner_wrapper true "X-FastAPI-Cache"
        (some ⟨"GET", [("If-None-Match", "W/abc")]⟩) [] "k" (.secInt 100)
        (vobj [("a", vint 1)])
        [("k", vdict [("k", vlist [vstr "\x7b\"a\": 1\x7d"])], 100)] 0
      = .error .attributeError ∧
    ((inner_wrapper true "X-FastAPI-Cache"
        (some ⟨"GET", [("If-None-Match", "*")]⟩) [] "k" (.secInt 100)
        (vobj [("a", vint 1)])
        [("k", vdict [("k", vlist [vstr "\x7b\"a\": 1\x7d"])], 100)] 0).map
        fun r => (r.invoked, r.statusCode,
          match r.ret with | .content s => s.isNone | .raw _ => false))
      = .ok (false, some 304, true) :=
  ⟨rfl, rfl⟩

/-- C2 is refuted at a concrete input: a connected call carrying no request
object is NOT skipped — the wrapper performs the lookup, misses, and writes
the store, where the claim requires a passthrough with no store touch. -/
theorem no_request_call_still_writes_store :
    ((inner_wrapper true "X-FastAPI-Cache" none [] "k" (.secInt 100)
        (vobj [("a", vint 1)]) [] 0).map fun r => (r.invoked, r.store))
      = .ok (true, [("k", vdict [("k", vlist [vstr "\x7b\"a\": 1\x7d"])], 100)]) ∧
    ([("k", vdict [("k", vlist [vstr "\x7b\"a\": 1\x7d"])], 100)] : Store) ≠ [] :=
  ⟨rfl, by simp⟩

/-- C3 is refuted at a concrete input: the two-call miss-then-hit scenario
produces a `Miss` then a `Hit` header and the handler runs only once, but the
second body is the Python `str` of the stored list of serialized entries —
`[\x27\x7b"a": 1\x7d\x27]` — which differs from the first body `\x7b"a": 1\x7d`. -/
theorem hit_body_differs_from_miss_body :
    ((inner_wrapper true "X-FastAPI-Cache" (some ⟨"GET", []⟩) [] "k" (.secInt 100)
        (vobj [("a", vint 1)]) [] 0).map fun r =>
          (r.invoked, getHeader r.respHeaders "X-FastAPI-Cache",
           (match r.ret with | .content s => s | .raw _ => none), r.store))
      = .ok (true, some "Miss", some "\x7b\"a\": 1\x7d",
             [("k", vdict [("k", vlist [vstr "\x7b\"a\": 1\x7d"])], 100)]) ∧
    ((inner_wrapper true "X-FastAPI-Cache" (some ⟨"GET", []⟩) [] "k" (.secInt 100)
        (vobj [("a", vint 1)])
        [("k", vdict [("k", vlist [vstr "\x7b\"a\": 1\x7d"])], 100)] 0).map fun r =>
          (r.invoked, getHeader r.respHeaders "X-FastAPI-Cache",
           match r.ret with | .content s => s | .raw _ => none))
      = .ok (false, some "Hit", some "[\x27\x7b\"a\": 1\x7d\x27]") ∧
    (some "\x7b\"a\": 1\x7d" : Option String) ≠ some "[\x27\x7b\"a\": 1\x7d\x27]" := by
  refine ⟨rfl, rfl, ?_⟩
  decide

/-- C8 is refuted at a concrete input: `str()` erases the value's type, so the
calls `f(x=1)` (integer) and `f(x="1")` (string) — distinct argument values —
produce the identical cache key `m.f(x=1)`. -/
theorem str_coercion_key_collision :
    get_cache_key "" [] ⟨"m", "f", [⟨"x", "int", none⟩]⟩ [] [("x", vint 1)]
      = .ok "m.f(x=1)" ∧
    get_cache_key "" [] ⟨"m", "f", [⟨"x", "int", none⟩]⟩ [] [("x", vstr "1")]
      = .ok "m.f(x=1)" ∧
    vint 1 ≠ vstr "1" :=
  ⟨rfl, rfl, by simp⟩

/-- C2 as amended: a decorated call is a pure passthrough — handler invoked
directly, headers untouched, store unchanged — exactly when the store client
is not connected, or a request object is present whose method is not GET or
whose `Cache-Control` header contains `no-store` or `no-cache`.  A call
carrying no request object proceeds to the key lookup. -/
theorem cacheability_skip_iff (connected : Bool) (hdrName : String)
    (request : Option Request) (resp0 : List (String × String)) (key : String)
    (expire : ExpireArg) (hv : PyVal) (st : Store) (now : Int) :
    (inner_wrapper connected hdrName request resp0 key expire hv st now =
        .ok ⟨true, .raw hv, resp0, none, st⟩ ↔
      connected = false ∨ request_is_not_cacheable request = true) ∧
    (request_is_not_cacheable request = true ↔
      ∃ req, request = some req ∧ (¬ req.method = "GET" ∨
        strContains ((getHeader req.headers "Cache-Control").getD "") "no-store" = true ∨
        strContains ((getHeader req.headers "Cache-Control").getD "") "no-cache" = true)) := by
  constructor
  · constructor
    · intro h
      by_contra hcon
      push_neg at hcon
      obtain ⟨hc, hrnc⟩ := hcon
      simp only [ne_eq, Bool.not_eq_false] at hc
      simp only [ne_eq, Bool.not_eq_true] at hrnc
      rw [inner_wrapper, if_neg (by simp [hc, hrnc])] at h
      rcases hsl : storeLookup st key with _ | ⟨sv, t⟩ <;>
        simp only [check_cache, hsl] at h
      · rcases hsm : serializedMessages hv with e | ms <;>
          simp only [add_to_cache, hsm] at h
        · cases e <;> simp at h
        · by_cases hl : hasLen hv = true
          · rcases hsj : serialize_json hv with e | body <;> simp [hl, hsj] at h
          · rcases ms with _ | ⟨m, ms'⟩
            · simp [hl, dictIndex] at h
            · simp [hl, dictIndex, listIndex0, List.lookup] at h
      · rcases hde : deserialize_json sv with e | w <;> simp only [hde] at h
        · simp at h
        · rcases hnm : requested_resource_not_modified request sv with e | b <;>
            simp only [hnm] at h
          · simp at h
          · cases b <;> simp at h
    · intro h
      rcases h with h | h
      · rw [inner_wrapper, if_pos (by simp [h])]
      · rw [inner_wrapper, if_pos (Or.inr h)]
  · cases request with
    | none =>
        simp [request_is_not_cacheable]
    | some req =>
        simp only [request_is_not_cacheable, ALLOWED_HTTP_TYPES]
        constructor
        · intro h
          refine ⟨req, rfl, ?_⟩
          rcases Bool.or_eq_true_iff.mp h with h1 | h2
          · left
            have := of_decide_eq_true h1
            simpa using this
          · right
            simpa [List.any_cons, List.any_nil, Bool.or_eq_true_iff] using h2
        · rintro ⟨req2, heq, hcond⟩
          cases heq
          apply Bool.or_eq_true_iff.mpr
          rcases hcond with h1 | h2
          · left
            apply decide_eq_true
            simpa using h1
          · right
            simpa [List.any_cons, List.any_nil, Bool.or_eq_true_iff] using h2

/-- Filtering out another key does not change a header lookup. -/
theorem getHeader_filter_ne (hs : List (String × String)) (k k' : String)
    (h : ¬ k' = k) :
    getHeader (hs.filter fun kv => ¬(kv.1 = k)) k' = getHeader hs k' := by
  induction hs with
  | nil => rfl
  | cons a tl ih =>
      rcases a with ⟨ak, av⟩
      simp only [decide_not] at ih
      by_cases hak : ak = k
      · have ha : ¬ (k' = ak) := fun hx => h (hx.trans hak)
        simp [List.filter_cons, hak, getHeader, ha, h, decide_not, ih]
      · by_cases ha : k' = ak <;>
          simp [List.filter_cons, hak, getHeader, ha, decide_not, ih]

/-- Reading back the header just set. -/
theorem getHeader_setHeader_same (hs : List (String × String)) (k v : String) :
    getHeader (setHeader hs k v) k = some v := by
  simp [getHeader, setHeader]

/-- Setting one header leaves the others readable. -/
theorem getHeader_setHeader_ne (hs : List (String × String)) (k v k' : String)
    (h : ¬ k' = k) :
    getHeader (setHeader hs k v) k' = getHeader hs k' := by
  rw [setHeader, getHeader, if_neg h]
  exact getHeader_filter_ne hs k k' h

/-- The hit/miss header set by `set_response_headers`, when the configured
name does not collide with `Expires`/`Cache-Control`. -/
theorem getHeader_set_response_headers (resp0 : List (String × String))
    (hdrName : String) (hit : Bool) (ttl now : Int)
    (h1 : ¬ hdrName = "Expires") (h2 : ¬ hdrName = "Cache-Control") :
    getHeader (set_response_headers resp0 hdrName hit ttl now) hdrName =
      some (if hit then "Hit" else "Miss") := by
  rw [set_response_headers, getHeader_setHeader_ne _ _ _ _ h2,
      getHeader_setHeader_ne _ _ _ _ h1, getHeader_setHeader_same]

/-- A GET request with no `Cache-Control` header is cacheable. -/
theorem request_is_not_cacheable_get_plain (req : Request) (hm : req.method = "GET")
    (hcc : getHeader req.headers "Cache-Control" = none) :
    request_is_not_cacheable (some req) = false := by
  simp [request_is_not_cacheable, ALLOWED_HTTP_TYPES, hm, hcc]
  decide

/-- C3 as amended: a decorated GET handler with no `Cache-Control` and no
`If-None-Match` request headers, called twice with identical arguments
(producing key `key`, fresh serialization `s`), behaves as follows.  First
call: the handler is invoked, the entry `\x7bkey: [s]\x7d` is written with the
computed TTL, the hit/miss header is `Miss`, and the body is `s`.  Second
call: the handler is not invoked, the hit/miss header is `Hit`, the store is
unchanged — but the body is the Python `str` of the stored list of serialized
entries, `"[\x27" ++ s ++ "\x27]"`, which never equals the first call's body. -/
theorem miss_then_hit_with_str_wrapped_body
    (attrs : List (String × PyVal)) (key s hdrName : String)
    (resp0 : List (String × String)) (st : Store) (req : Request)
    (now : Int) (expire : ExpireArg)
    (hk : ¬ key = "_spec_type")
    (hser : dumps (CustomJsonEncoder (vdict attrs)) = some s)
    (hmiss : storeLookup st key = none)
    (hm : req.method = "GET")
    (hcc : getHeader req.headers "Cache-Control" = none)
    (hinm : getHeader req.headers "If-None-Match" = none)
    (hh1 : ¬ hdrName = "Expires") (hh2 : ¬ hdrName = "Cache-Control") :
    inner_wrapper true hdrName (some req) resp0 key expire (vobj attrs) st now =
      .ok ⟨true, .content (some s),
           set_response_headers resp0 hdrName false (calculate_ttl expire) now, none,
           storeSet st key (vdict [(key, vlist [vstr s])]) (calculate_ttl expire)⟩ ∧
    getHeader (set_response_headers resp0 hdrName false (calculate_ttl expire) now)
      hdrName = some "Miss" ∧
    inner_wrapper true hdrName (some req) resp0 key expire (vobj attrs)
        (storeSet st key (vdict [(key, vlist [vstr s])]) (calculate_ttl expire)) now =
      .ok ⟨false, .content (some ("[" ++ ("\x27" ++ s ++ "\x27") ++ "]")),
           set_response_headers resp0 hdrName true (calculate_ttl expire) now, none,
           storeSet st key (vdict [(key, vlist [vstr s])]) (calculate_ttl expire)⟩ ∧
    getHeader (set_response_headers resp0 hdrName true (calculate_ttl expire) now)
      hdrName = some "Hit" ∧
    ∀ t : Option String, t = some s →
      ¬ t = some ("[" ++ ("\x27" ++ s ++ "\x27") ++ "]") := by
  have hrnc := request_is_not_cacheable_get_plain req hm hcc
  have hineq : ¬ s = "[" ++ ("\x27" ++ s ++ "\x27") ++ "]" := by
    intro hx
    have hlen := congrArg String.length hx
    have h1 : "[".length = 1 := rfl
    have h2 : "]".length = 1 := rfl
    have h3 : "\x27".length = 1 := rfl
    simp [String.length_append, h1, h2, h3] at hlen
    omega
  refine ⟨?_, ?_, ?_, ?_, ?_⟩
  · rw [inner_wrapper, if_neg (by simp [hrnc])]
    simp only [check_cache, hmiss, add_to_cache, serializedMessages, hasLen, pyDict,
      serialize_json, hser]
    simp [dictIndex, listIndex0, List.lookup]
  · exact getHeader_set_response_headers resp0 hdrName false _ now hh1 hh2
  · rw [inner_wrapper, if_neg (by simp [hrnc])]
    have hsl : storeLookup
        (storeSet st key (vdict [(key, vlist [vstr s])]) (calculate_ttl expire)) key =
        some (vdict [(key, vlist [vstr s])], calculate_ttl expire) := by
      simp [storeSet, storeLookup]
    simp only [check_cache, hsl]
    have hde : deserialize_json (vdict [(key, vlist [vstr s])]) =
        .ok (vdict [(key, vlist [vstr s])]) := by
      have hne : ("_spec_type" == key) = false := by
        simp [beq_eq_false_iff_ne]
        intro hx
        exact hk hx.symm
      simp [deserialize_json, deserializeKVs, deserializeList, object_hook,
        List.lookup, hne]
    have hnm : requested_resource_not_modified (some req)
        (vdict [(key, vlist [vstr s])]) = .ok false := by
      simp [requested_resource_not_modified, hinm]
    simp only [hde, hnm]
    simp [dictGetOrSelf, List.lookup, pyStr, pyRepr, pyReprList, String.intercalate]
    rfl
  · exact getHeader_set_response_headers resp0 hdrName true _ now hh1 hh2
  · intro t ht hx
    rw [ht] at hx
    exact hineq (Option.some.inj hx)

/-- The miss-then-hit scenario theorem applies: all its hypotheses hold at the
concrete two-call run on handler result `\x7b"a": 1\x7d` with key `k`. -/
theorem miss_then_hit_witness :
    inner_wrapper true "X-FastAPI-Cache" (some ⟨"GET", []⟩) [] "k" (.secInt 100)
        (vobj [("a", vint 1)]) [] 0 =
      .ok ⟨true, .content (some "\x7b\"a\": 1\x7d"),
           set_response_headers [] "X-FastAPI-Cache" false (calculate_ttl (.secInt 100)) 0,
           none,
           storeSet [] "k" (vdict [("k", vlist [vstr "\x7b\"a\": 1\x7d"])])
             (calculate_ttl (.secInt 100))⟩ ∧
    getHeader (set_response_headers [] "X-FastAPI-Cache" false
        (calculate_ttl (.secInt 100)) 0) "X-FastAPI-Cache" = some "Miss" ∧
    inner_wrapper true "X-FastAPI-Cache" (some ⟨"GET", []⟩) [] "k" (.secInt 100)
        (vobj [("a", vint 1)])
        (storeSet [] "k" (vdict [("k", vlist [vstr "\x7b\"a\": 1\x7d"])])
          (calculate_ttl (.secInt 100))) 0 =
      .ok ⟨false, .content (some ("[" ++ ("\x27" ++ "\x7b\"a\": 1\x7d" ++ "\x27") ++ "]")),
           set_response_headers [] "X-FastAPI-Cache" true (calculate_ttl (.secInt 100)) 0,
           none,
           storeSet [] "k" (vdict [("k", vlist [vstr "\x7b\"a\": 1\x7d"])])
             (calculate_ttl (.secInt 100))⟩ ∧
    getHeader (set_response_headers [] "X-FastAPI-Cache" true
        (calculate_ttl (.secInt 100)) 0) "X-FastAPI-Cache" = some "Hit" ∧
    ∀ t : Option String, t = some "\x7b\"a\": 1\x7d" →
      ¬ t = some ("[" ++ ("\x27" ++ "\x7b\"a\": 1\x7d" ++ "\x27") ++ "]") :=
  miss_then_hit_with_str_wrapped_body [("a", vint 1)] "k" "\x7b\"a\": 1\x7d"
    "X-FastAPI-Cache" [] [] ⟨"GET", []⟩ 0 (.secInt 100)
    (by decide) rfl rfl rfl rfl rfl (by decide) (by decide)

/-- Name lookup in a keyword-argument dict does not depend on entry order,
keys being unique. -/
theorem lookup_eq_of_perm {β : Type} (a : String) {l1 l2 : List (String × β)}
    (hp : l1.Perm l2) :
    (l1.map Prod.fst).Nodup → l1.lookup a = l2.lookup a := by
  induction hp with
  | nil => intro _; rfl
  | cons x h ih =>
      intro hn
      rcases x with ⟨k, v⟩
      simp only [List.map_cons, List.nodup_cons] at hn
      by_cases hak : (a == k) = true
      · simp only [List.lookup, hak]
      · simp only [List.lookup, hak]
        exact ih hn.2
  | swap x y l =>
      intro hn
      rcases x with ⟨k1, v1⟩
      rcases y with ⟨k2, v2⟩
      simp only [List.map_cons, List.nodup_cons, List.mem_cons] at hn
      by_cases h1 : (a == k1) = true <;> by_cases h2 : (a == k2) = true <;>
        simp only [List.lookup, h1, h2]
      exact absurd ((eq_of_beq h2).symm.trans (eq_of_beq h1)) fun hx =>
        hn.1 (Or.inl hx)
  | trans h12 h23 ih1 ih2 =>
      intro hn
      exact (ih1 hn).trans (ih2 (((h12.map Prod.fst).nodup_iff).mp hn))

/-- Binding is insensitive to the order of the keyword arguments. -/
theorem bindArgs_perm (sig : List Param) :
    ∀ (args : List PyVal) (kw1 kw2 : List (String × PyVal)), kw1.Perm kw2 →
    (kw1.map Prod.fst).Nodup → bindArgs sig args kw1 = bindArgs sig args kw2 := by
  induction sig with
  | nil =>
      intro args kw1 kw2 hp hn
      cases args with
      | nil =>
          have hemp : kw1.isEmpty = kw2.isEmpty := by
            cases kw1 with
            | nil =>
                cases kw2 with
                | nil => rfl
                | cons b bs => simpa using hp.length_eq
            | cons a as =>
                cases kw2 with
                | nil => simpa using hp.length_eq
                | cons b bs => rfl
          rw [bindArgs, bindArgs, hemp]
      | cons a as => rfl
  | cons p ps ih =>
      intro args kw1 kw2 hp hn
      cases args with
      | cons a as =>
          simp only [bindArgs]
          rw [lookup_eq_of_perm p.name hp hn, ih as kw1 kw2 hp hn]
      | nil =>
          simp only [bindArgs]
          rw [lookup_eq_of_perm p.name hp hn]
          cases hl : kw2.lookup p.name with
          | some v =>
              have hfp : (kw1.filter fun kv => ¬(kv.1 = p.name)).Perm
                  (kw2.filter fun kv => ¬(kv.1 = p.name)) := hp.filter _
              have hfn : ((kw1.filter fun kv => ¬(kv.1 = p.name)).map Prod.fst).Nodup :=
                hn.sublist ((kw1.filter_sublist).map Prod.fst)
              rw [ih [] _ _ hfp hfn]
          | none =>
              cases p.dflt with
              | some d => rw [ih [] kw1 kw2 hp hn]
              | none => rfl

/-- C8 as amended: binding normalizes named arguments to declared parameter
order, so permuting the keyword arguments of a call never changes the cache
key; and for a function with a single non-ignored parameter, argument values
with distinct `str()` renderings yield distinct keys.  (Full value
sensitivity fails: `str()` erases the type, so distinct values can share a
rendering — see the collision of `1` and `"1"`.) -/
theorem key_order_insensitive_and_str_sensitive :
    (∀ (keyPre : String) (iTs : List String) (func : PyFunc) (args : List PyVal)
       (kw1 kw2 : List (String × PyVal)), kw1.Perm kw2 →
       (kw1.map Prod.fst).Nodup →
       get_cache_key keyPre iTs func args kw1 = get_cache_key keyPre iTs func args kw2) ∧
    (∀ (module fname pname panno keyPre : String) (iTs : List String)
       (v1 v2 : PyVal),
       ¬ panno ∈ iTs ++ ALWAYS_IGNORE_ARG_TYPES →
       ¬ pyStr v1 = pyStr v2 →
       ¬ get_cache_key keyPre iTs ⟨module, fname, [⟨pname, panno, none⟩]⟩ []
            [(pname, v1)] =
         get_cache_key keyPre iTs ⟨module, fname, [⟨pname, panno, none⟩]⟩ []
            [(pname, v2)]) := by
  constructor
  · intro keyPre iTs func args kw1 kw2 hp hn
    rw [get_cache_key, get_cache_key, bindArgs_perm func.sig args kw1 kw2 hp hn]
  · intro module fname pname panno keyPre iTs v1 v2 hig hne
    have hkey : ∀ v : PyVal,
        get_cache_key keyPre iTs ⟨module, fname, [⟨pname, panno, none⟩]⟩ []
          [(pname, v)] =
        .ok ((if keyPre = "" then "" else keyPre ++ ":") ++ module ++ "." ++ fname ++
             "(" ++ (pname ++ "=" ++ pyStr v) ++ ")") := by
      intro v
      have hig2 := hig
      simp only [List.mem_append, not_or] at hig2
      rw [get_cache_key]
      simp only [bindArgs, List.lookup, beq_self_eq_true]
      rw [show List.filter (fun kv => decide ¬(kv.1 = pname)) [(pname, v)] = [] by
        simp [List.filter_cons]]
      simp only [bindArgs, List.isEmpty_nil, if_true]
      simp [get_args_str, annoOf, List.find?, List.filter_cons, hig2.1, hig2.2,
        String.intercalate]
      rfl
    intro h
    rw [hkey v1, hkey v2] at h
    have hs := Except.ok.inj h
    have hd := congrArg String.data hs
    simp only [String.data_append] at hd
    have h1 := List.append_cancel_right hd
    have h2 := List.append_cancel_left h1
    have h3 := List.append_cancel_left h2
    exact hne (String.ext h3)

/-- The key order-insensitivity/value-sensitivity theorem applies: reordering
the keyword arguments `x=1, y=2` leaves the key unchanged, and `x=1` versus
`x=2` (distinct renderings) changes it. -/
theorem key_order_witness :
    get_cache_key "" [] ⟨"m", "g", [⟨"x", "int", none⟩, ⟨"y", "int", none⟩]⟩ []
        [("x", vint 1), ("y", vint 2)] =
      get_cache_key "" [] ⟨"m", "g", [⟨"x", "int", none⟩, ⟨"y", "int", none⟩]⟩ []
        [("y", vint 2), ("x", vint 1)] ∧
    ¬ get_cache_key "" [] ⟨"m", "f", [⟨"x", "int", none⟩]⟩ [] [("x", vint 1)] =
      get_cache_key "" [] ⟨"m", "f", [⟨"x", "int", none⟩]⟩ [] [("x", vint 2)] :=
  ⟨key_order_insensitive_and_str_sensitive.1 "" []
      ⟨"m", "g", [⟨"x", "int", none⟩, ⟨"y", "int", none⟩]⟩ []
      [("x", vint 1), ("y", vint 2)] [("y", vint 2), ("x", vint 1)]
      (List.Perm.swap ("y", vint 2) ("x", vint 1) [])
      (by decide),
   key_order_insensitive_and_str_sensitive.2 "m" "f" "x" "int" "" []
      (vint 1) (vint 2) (by decide) (by decide)⟩

/-- C9: the key builder is deterministic — the same prefix, ignored-type set,
function, and arguments always produce the identical key string; moreover the
key depends on the ignored-type set only through membership, so the
unspecified iteration order of the Python `set` union cannot influence it. -/
theorem buildKey_deterministic (keyPre : String) (iTs : List String)
    (func : PyFunc) (args : List PyVal) (kwargs : List (String × PyVal)) :
    get_cache_key keyPre iTs func args kwargs =
      get_cache_key keyPre iTs func args kwargs ∧
    (∀ iTs2 : List String, (∀ t, t ∈ iTs ↔ t ∈ iTs2) →
      get_cache_key keyPre iTs func args kwargs =
        get_cache_key keyPre iTs2 func args kwargs) := by
  refine ⟨rfl, fun iTs2 hmem => ?_⟩
  have hc : ∀ x, (iTs ++ ALWAYS_IGNORE_ARG_TYPES).contains x =
      (iTs2 ++ ALWAYS_IGNORE_ARG_TYPES).contains x := by
    intro x
    rw [Bool.eq_iff_iff]
    simp [List.mem_append, hmem x]
  rw [get_cache_key, get_cache_key]
  cases hb : bindArgs func.sig args kwargs with
  | error e => rfl
  | ok fa =>
      have hgas : get_args_str func.sig fa (iTs ++ ALWAYS_IGNORE_ARG_TYPES) =
          get_args_str func.sig fa (iTs2 ++ ALWAYS_IGNORE_ARG_TYPES) := by
        rw [get_args_str, get_args_str]
        apply congrArg
        apply congrArg
        apply List.filter_congr
        intro kv _
        simp only [hc]
      simp [hgas]

/-- The determinism theorem applies: the ignored-set representations
`["A"]` and `["A", "A"]` have the same members, hence give the same key. -/
theorem buildKey_deterministic_witness :
    get_cache_key "p" ["A"] ⟨"m", "h", []⟩ [] [] =
      get_cache_key "p" ["A", "A"] ⟨"m", "h", []⟩ [] [] :=
  (buildKey_deterministic "p" ["A"] ⟨"m", "h", []⟩ [] []).2 ["A", "A"]
    (by intro t; simp)

/-- A digit character reads back as its digit. -/
theorem charDigit_digitChar : ∀ d < 10, charDigit (digitChar d) = some d := by
  decide

/-- A two-digit zero-padded field reads back as its value. -/
theorem parse2_digits (n : Nat) (h : n < 100) :
    parse2 (digitChar (n / 10 % 10)) (digitChar (n % 10)) = some n := by
  rw [parse2, charDigit_digitChar (n / 10 % 10) (by omega),
      charDigit_digitChar (n % 10) (by omega)]
  simp only []
  congr 1
  omega

/-- A four-digit zero-padded field reads back as its value. -/
theorem parse4_digits (n : Nat) (h : n < 10000) :
    parse4 (digitChar (n / 1000 % 10)) (digitChar (n / 100 % 10))
      (digitChar (n / 10 % 10)) (digitChar (n % 10)) = some n := by
  rw [parse4, charDigit_digitChar (n / 1000 % 10) (by omega),
      charDigit_digitChar (n / 100 % 10) (by omega),
      charDigit_digitChar (n / 10 % 10) (by omega),
      charDigit_digitChar (n % 10) (by omega)]
  simp only []
  congr 1
  omega

/-- The date component of the parser inverts the formatter on valid fields. -/
theorem mkParsedDate_pad (mo da y : Nat)
    (hm1 : 1 ≤ mo) (hm2 : mo ≤ 12) (hd1 : 1 ≤ da) (hd2 : da ≤ 31)
    (hy1 : 1000 ≤ y) (hy2 : y < 10000) :
    mkParsedDate (digitChar (mo / 10 % 10)) (digitChar (mo % 10))
      (digitChar (da / 10 % 10)) (digitChar (da % 10))
      (digitChar (y / 1000 % 10)) (digitChar (y / 100 % 10))
      (digitChar (y / 10 % 10)) (digitChar (y % 10)) = .ok (y, mo, da) := by
  rw [mkParsedDate, parse2_digits mo (by omega), parse2_digits da (by omega),
      parse4_digits y (by omega)]
  simp only []
  rw [if_pos ⟨hm1, hm2, hd1, hd2⟩]

/-- The time component inverts the formatter for a morning hour. -/
theorem mkParsedTime_am (h mi se : Nat) (hh : h < 12) (hmi : mi < 60) (hse : se < 60) :
    mkParsedTime (digitChar (hour12 h / 10 % 10)) (digitChar (hour12 h % 10))
      (digitChar (mi / 10 % 10)) (digitChar (mi % 10))
      (digitChar (se / 10 % 10)) (digitChar (se % 10)) 'A' = .ok (h, mi, se) := by
  have h12 : hour12 h < 100 := by rw [hour12]; split <;> omega
  have hr1 : 1 ≤ hour12 h := by rw [hour12]; split <;> omega
  have hr2 : hour12 h ≤ 12 := by rw [hour12]; split <;> omega
  have hmod : hour12 h % 12 = h := by rw [hour12]; split <;> omega
  rw [mkParsedTime, parse2_digits (hour12 h) h12, parse2_digits mi (by omega),
      parse2_digits se (by omega)]
  simp only []
  rw [if_pos ⟨hr1, hr2, by omega, by omega⟩, if_pos trivial, hmod]

/-- The time component inverts the formatter for an afternoon hour. -/
theorem mkParsedTime_pm (h mi se : Nat) (hh1 : 12 ≤ h) (hh2 : h < 24)
    (hmi : mi < 60) (hse : se < 60) :
    mkParsedTime (digitChar (hour12 h / 10 % 10)) (digitChar (hour12 h % 10))
      (digitChar (mi / 10 % 10)) (digitChar (mi % 10))
      (digitChar (se / 10 % 10)) (digitChar (se % 10)) 'P' = .ok (h, mi, se) := by
  have h12 : hour12 h < 100 := by rw [hour12]; split <;> omega
  have hr1 : 1 ≤ hour12 h := by rw [hour12]; split <;> omega
  have hr2 : hour12 h ≤ 12 := by rw [hour12]; split <;> omega
  have hmod : hour12 h % 12 + 12 = h := by rw [hour12]; split <;> omega
  rw [mkParsedTime, parse2_digits (hour12 h) h12, parse2_digits mi (by omega),
      parse2_digits se (by omega)]
  simp only []
  rw [if_pos ⟨hr1, hr2, by omega, by omega⟩, if_neg (by decide), if_pos trivial, hmod]

/-- The offset component inverts the formatter for a non-negative offset. -/
theorem mkParsedTZ_pos (off : Int) (h0 : 0 ≤ off) (hb : off.natAbs ≤ 5999) :
    mkParsedTZ '+' (digitChar (off.natAbs / 60 / 10 % 10))
      (digitChar (off.natAbs / 60 % 10)) (digitChar (off.natAbs % 60 / 10 % 10))
      (digitChar (off.natAbs % 60 % 10)) = .ok off := by
  rw [mkParsedTZ, parseSign, if_pos rfl, parse2_digits (off.natAbs / 60) (by omega),
      parse2_digits (off.natAbs % 60) (by omega)]
  simp only [if_pos]
  congr 1
  omega

/-- The offset component inverts the formatter for a negative offset. -/
theorem mkParsedTZ_neg (off : Int) (h0 : ¬ 0 ≤ off) (hb : off.natAbs ≤ 5999) :
    mkParsedTZ '-' (digitChar (off.natAbs / 60 / 10 % 10))
      (digitChar (off.natAbs / 60 % 10)) (digitChar (off.natAbs % 60 / 10 % 10))
      (digitChar (off.natAbs % 60 % 10)) = .ok off := by
  rw [mkParsedTZ, parseSign, if_neg (by decide), if_pos rfl,
      parse2_digits (off.natAbs / 60) (by omega),
      parse2_digits (off.natAbs % 60) (by omega)]
  simp only []
  rw [if_neg (by decide)]
  congr 1
  omega

/-- `dateutil` inverts `strftime(DATETIME_AWARE)` on every valid aware
timestamp. -/
theorem parse_strftime_aware (dt : PyDatetime) (off : Int)
    (hv : dt.validAware off) :
    parse_datetime_str (strftime_aware dt) = .ok dt := by
  obtain ⟨y, mo, da, h, mi, se, tz⟩ := dt
  obtain ⟨htz, hm1, hm2, hd1, hd2, hh, hmi, hse, hy1, hy2, hoff⟩ := hv
  simp only at htz
  subst htz
  by_cases hampm : h < 12 <;> by_cases hsign : 0 ≤ off <;>
    simp only [strftime_aware, pad2, pad4, ampmChars, tzChars, if_pos, if_neg,
      hampm, hsign, List.cons_append, List.nil_append, List.append_nil,
      if_true, if_false, ite_true, ite_false, parse_datetime_str]
  · rw [mkParsedDate_pad mo da y hm1 hm2 hd1 hd2 hy1 hy2,
        mkParsedTime_am h mi se hampm hmi hse, mkParsedTZ_pos off hsign hoff]
  · rw [mkParsedDate_pad mo da y hm1 hm2 hd1 hd2 hy1 hy2,
        mkParsedTime_am h mi se hampm hmi hse, mkParsedTZ_neg off hsign hoff]
  · rw [mkParsedDate_pad mo da y hm1 hm2 hd1 hd2 hy1 hy2,
        mkParsedTime_pm h mi se (by omega) hh hmi hse, mkParsedTZ_pos off hsign hoff]
  · rw [mkParsedDate_pad mo da y hm1 hm2 hd1 hd2 hy1 hy2,
        mkParsedTime_pm h mi se (by omega) hh hmi hse, mkParsedTZ_neg off hsign hoff]

/-- Membership form of `nativeOKList`. -/
theorem nativeOKList_mem {xs : List PyVal} (h : nativeOKList xs = true) :
    ∀ x ∈ xs, nativeOK x = true := by
  induction xs with
  | nil => intro x hx; cases hx
  | cons a as ih =>
      rw [nativeOKList, Bool.and_eq_true] at h
      intro x hx
      rcases List.mem_cons.mp hx with rfl | hx2
      · exact h.1
      · exact ih h.2 x hx2

/-- Membership form of `nativeOKKVs`. -/
theorem nativeOKKVs_mem {kvs : List (String × PyVal)} (h : nativeOKKVs kvs = true) :
    ∀ kv ∈ kvs, nativeOK kv.2 = true := by
  induction kvs with
  | nil => intro kv hkv; cases hkv
  | cons a as ih =>
      obtain ⟨k, v⟩ := a
      rw [nativeOKKVs, Bool.and_eq_true] at h
      intro kv hkv
      rcases List.mem_cons.mp hkv with rfl | hkv2
      · exact h.1
      · exact ih h.2 kv hkv2

/-- The dict branch of the encoder is the identity when no value is an
`InstanceState`, `datetime` or `Enum` — in particular on native values. -/
theorem encodeDictEntries_id (kvs : List (String × PyVal))
    (h : ∀ kv ∈ kvs, nativeOK kv.2 = true) : encodeDictEntries kvs = kvs := by
  induction kvs with
  | nil => rfl
  | cons kv rest ih =>
      obtain ⟨k, v⟩ := kv
      have hv := h (k, v) (List.mem_cons_self _ _)
      have hrest := ih fun kv2 hkv2 => h kv2 (List.mem_cons_of_mem _ hkv2)
      cases v <;> simp_all [encodeDictEntries, nativeOK]

/-- The list branch of the encoder is the identity given pointwise identity. -/
theorem encodeListElems_id (xs : List PyVal)
    (h : ∀ x ∈ xs, CustomJsonEncoder x = x) : encodeListElems xs = xs := by
  induction xs with
  | nil => rfl
  | cons a as ih =>
      rw [encodeListElems, h a (List.mem_cons_self _ _),
          ih fun x hx => h x (List.mem_cons_of_mem _ hx)]

/-- `deserializeList` succeeds identically given pointwise success. -/
theorem deserializeList_ok (xs : List PyVal)
    (h : ∀ x ∈ xs, deserialize_json x = .ok x) : deserializeList xs = .ok xs := by
  induction xs with
  | nil => rfl
  | cons a as ih =>
      rw [deserializeList, h a (List.mem_cons_self _ _),
          ih fun x hx => h x (List.mem_cons_of_mem _ hx)]

/-- `deserializeKVs` succeeds identically given pointwise success. -/
theorem deserializeKVs_ok (kvs : List (String × PyVal))
    (h : ∀ kv ∈ kvs, deserialize_json kv.2 = .ok kv.2) :
    deserializeKVs kvs = .ok kvs := by
  induction kvs with
  | nil => rfl
  | cons kv rest ih =>
      obtain ⟨k, v⟩ := kv
      rw [deserializeKVs, h (k, v) (List.mem_cons_self _ _),
          ih fun kv2 hkv2 => h kv2 (List.mem_cons_of_mem _ hkv2)]

/-- Fuelled form: the encoder is the identity on native values. -/
theorem encode_native_of_lt :
    ∀ (n : Nat) (v : PyVal), sizeOf v < n → nativeOK v = true →
      CustomJsonEncoder v = v := by
  intro n
  induction n with
  | zero => intro v hs _; omega
  | succ n ih =>
      intro v hs hok
      cases v with
      | vlist xs =>
          rw [nativeOK] at hok
          have hsx : sizeOf xs < n := by
            simp only [PyVal.vlist.sizeOf_spec] at hs
            omega
          refine congrArg vlist (encodeListElems_id xs fun x hx => ?_)
          have h2 := List.sizeOf_lt_of_mem hx
          exact ih x (by omega) (nativeOKList_mem hok x hx)
      | vdict kvs =>
          rw [nativeOK, Bool.and_eq_true] at hok
          exact congrArg vdict (encodeDictEntries_id kvs (nativeOKKVs_mem hok.1))
      | vnone => rfl
      | vbool b => rfl
      | vint m => rfl
      | vstr s => rfl
      | vdatetime dt => exact Bool.noConfusion hok
      | vdate a b c => exact Bool.noConfusion hok
      | vdecimal s => exact Bool.noConfusion hok
      | venum u => exact Bool.noConfusion hok
      | vuuid s => exact Bool.noConfusion hok
      | vinstanceState => exact Bool.noConfusion hok
      | vobj attrs => exact Bool.noConfusion hok
      | vopaque t => exact Bool.noConfusion hok

/-- Fuelled form: decoding is the identity on native values. -/
theorem deserialize_native_of_lt :
    ∀ (n : Nat) (v : PyVal), sizeOf v < n → nativeOK v = true →
      deserialize_json v = .ok v := by
  intro n
  induction n with
  | zero => intro v hs _; omega
  | succ n ih =>
      intro v hs hok
      cases v with
      | vlist xs =>
          rw [nativeOK] at hok
          simp only [PyVal.vlist.sizeOf_spec] at hs
          rw [deserialize_json, deserializeList_ok xs fun x hx => by
            have h2 := List.sizeOf_lt_of_mem hx
            exact ih x (by omega) (nativeOKList_mem hok x hx)]
      | vdict kvs =>
          rw [nativeOK, Bool.and_eq_true] at hok
          simp only [PyVal.vdict.sizeOf_spec] at hs
          rw [deserialize_json, deserializeKVs_ok kvs fun kv hkv => by
            have h2 := List.sizeOf_lt_of_mem hkv
            have h3 : sizeOf kv.2 < sizeOf kv := by
              obtain ⟨k2, v2⟩ := kv
              simp only [Prod.mk.sizeOf_spec]
              omega
            exact ih kv.2 (by omega) (nativeOKKVs_mem hok.1 kv hkv)]
          show object_hook kvs = .ok (vdict kvs)
          simp only [object_hook, Option.isNone_iff_eq_none.mp hok.2]
      | vnone => rfl
      | vbool b => rfl
      | vint m => rfl
      | vstr s => rfl
      | vdatetime dt => exact Bool.noConfusion hok
      | vdate a b c => exact Bool.noConfusion hok
      | vdecimal s => exact Bool.noConfusion hok
      | venum u => exact Bool.noConfusion hok
      | vuuid s => exact Bool.noConfusion hok
      | vinstanceState => exact Bool.noConfusion hok
      | vobj attrs => exact Bool.noConfusion hok
      | vopaque t => exact Bool.noConfusion hok

/-- `CustomJsonEncoder` is the identity on JSON-native values. -/
theorem CustomJsonEncoder_native (v : PyVal) (h : nativeOK v = true) :
    CustomJsonEncoder v = v :=
  encode_native_of_lt (sizeOf v + 1) v (by omega) h

/-- `deserialize_json` passes JSON-native values through unchanged. -/
theorem deserialize_json_native (v : PyVal) (h : nativeOK v = true) :
    deserialize_json v = .ok v :=
  deserialize_native_of_lt (sizeOf v + 1) v (by omega) h

/-- C4 as amended: `decode(encode(v)) = v` for JSON-native values, fixed-point
decimals (exactly, by their textual representation — no floating
approximation), and valid timezone-aware whole-second timestamps.  Date-only
values are excluded: they decode to a midnight `datetime`
(see the accompanying refutation). -/
theorem envelope_roundtrip (v : PyVal) (h : RTSupported v) :
    deserialize_json (CustomJsonEncoder v) = .ok v := by
  rcases h with hn | ⟨s, rfl⟩ | ⟨dt, off, rfl, hva⟩
  · rw [CustomJsonEncoder_native v hn]
    exact deserialize_json_native v hn
  · rfl
  · have hps := parse_strftime_aware dt off hva
    simp only [CustomJsonEncoder, deserialize_json, deserializeKVs,
      deserializeList, object_hook, List.lookup, SERIALIZE_OBJ_MAP_lookup]
    simp [str_datetime_class, str_date_class, str_decimal_class, hps]
    rfl

/-- The round-trip theorem applies: the claim's example timestamp
`2024-01-15T10:30:00+00:00` and the decimal `"19.99"` are supported and
round-trip to themselves. -/
theorem envelope_roundtrip_witness :
    deserialize_json (CustomJsonEncoder
        (vdatetime ⟨2024, 1, 15, 10, 30, 0, some 0⟩)) =
      .ok (vdatetime ⟨2024, 1, 15, 10, 30, 0, some 0⟩) ∧
    deserialize_json (CustomJsonEncoder (vdecimal "19.99")) =
      .ok (vdecimal "19.99") :=
  ⟨envelope_roundtrip (vdatetime ⟨2024, 1, 15, 10, 30, 0, some 0⟩)
      (Or.inr (Or.inr ⟨⟨2024, 1, 15, 10, 30, 0, some 0⟩, 0, rfl,
        by simp [PyDatetime.validAware]⟩)),
   envelope_roundtrip (vdecimal "19.99") (Or.inr (Or.inl ⟨"19.99", rfl⟩))⟩

/-- C4 is refuted at a concrete input: a date-only value does not round-trip —
`SERIALIZE_OBJ_MAP` sends the date tag to `parser.parse`, which builds a
`datetime` at midnight, and a `datetime` never equals a `date`. -/
theorem date_decodes_to_datetime :
    deserialize_json (CustomJsonEncoder (vdate 2024 1 15)) =
      .ok (vdatetime ⟨2024, 1, 15, 0, 0, 0, none⟩) ∧
    vdatetime ⟨2024, 1, 15, 0, 0, 0, none⟩ ≠ vdate 2024 1 15 :=
  ⟨rfl, by simp⟩

end Cyrus
